import Mathlib

/-!
Verification of the headless-watcher-service (SenseCAP Watcher local server).

Go strings are modelled as lists of characters (`GoStr`); Go byte slices as
lists of natural numbers below 256.  Each definition in this file is a direct
shallow embedding of a function of the Go source; the source location is named
in its doc comment.
-/

/-- A Go string, modelled as its sequence of Unicode code points. -/
abbrev GoStr := List Char

/-- The apostrophe character (U+0027). -/
def apos : Char := Char.ofNat 39

/-- The characters reported as white space by Go `unicode.IsSpace` in the
Latin-1 range (the only ones relevant to the strings handled here). -/
def goIsSpace (c : Char) : Bool :=
  c = ' ' || c = Char.ofNat 9 || c = Char.ofNat 10 || c = Char.ofNat 11 ||
  c = Char.ofNat 12 || c = Char.ofNat 13 || c = Char.ofNat 0x85 || c = Char.ofNat 0xA0

/-- Go `strings.TrimSpace`: drop leading and trailing white-space characters. -/
def goTrimSpace (s : GoStr) : GoStr :=
  ((s.dropWhile goIsSpace).reverse.dropWhile goIsSpace).reverse

/-- Go `strings.Trim`: drop leading and trailing characters of `cutset`. -/
def goTrim (s : GoStr) (cutset : List Char) : GoStr :=
  ((s.dropWhile (fun c => cutset.contains c)).reverse.dropWhile
    (fun c => cutset.contains c)).reverse

/-- Go `strings.TrimRight`: drop trailing characters of `cutset`. -/
def goTrimRight (s : GoStr) (cutset : List Char) : GoStr :=
  (s.reverse.dropWhile (fun c => cutset.contains c)).reverse

/-- Go `strings.Contains sub s`: `sub` occurs as a contiguous substring of `s`
(the empty string occurs in every string). -/
def goContainsSub : GoStr → GoStr → Bool
  | [], sub => sub.isEmpty
  | c :: rest, sub => sub.isPrefixOf (c :: rest) || goContainsSub rest sub

/-- Go `unicode.ToLower` restricted to ASCII letters (the cue strings compared
against are all ASCII). -/
def goToLowerChar (c : Char) : Char :=
  if 65 ≤ c.toNat && c.toNat ≤ 90 then Char.ofNat (c.toNat + 32) else c

/-- Go `strings.ToLower`. -/
def goToLower (s : GoStr) : GoStr := s.map goToLowerChar

/-- `determineMode` (voice pipeline, audio_stream handler): trim the classifier
LLM response, return 1 if it contains the digit 1, else 2 if it contains the
digit 2, else 0 (chat). -/
def determineMode (response : GoStr) : Nat :=
  if goContainsSub (goTrimSpace response) ['1'] then 1
  else if goContainsSub (goTrimSpace response) ['2'] then 2
  else 0

/-- The mode that the claim attributes to the parser: the first occurrence of
digit 1 or digit 2 decides; 0 when neither occurs. -/
def firstDigitMode : GoStr → Nat
  | [] => 0
  | c :: rest =>
    if c = '1' then 1
    else if c = '2' then 2
    else firstDigitMode rest

/-- Model-kind parsing in `processTaskMode`: 2 (pet) if the normalized model
selector output contains digit 2, else 3 (gesture) if it contains 3, else 0
(cloud) if it contains 0, else 1 (person). -/
def parseModelType (s : GoStr) : Nat :=
  if goContainsSub s ['2'] then 2
  else if goContainsSub s ['3'] then 3
  else if goContainsSub s ['0'] then 0
  else 1

/-- The model kind obtained by scanning for the first occurrence of digit 2, 3
or 0, as the claim describes; 1 (person) when none occurs. -/
def firstModelDigit : GoStr → Nat
  | [] => 1
  | c :: rest =>
    if c = '2' then 2
    else if c = '3' then 3
    else if c = '0' then 0
    else firstModelDigit rest

/-- The cutset of `strings.Trim(result, quotes)` in `cleanLLMResponse`:
double quote and single quote. -/
def quoteCutset : List Char := [Char.ofNat 34, apos]

/-- The cutset of `strings.TrimRight` in `cleanLLMResponse`. -/
def punctCutset : List Char := ['.', ',', '!', '?', ';', ':']

/-- `cleanLLMResponse`: trim white space, strip surrounding quotes, strip
trailing punctuation, trim white space again. -/
def cleanLLMResponse (response : GoStr) : GoStr :=
  let result := goTrimSpace response
  let result := goTrim result quoteCutset
  let result := goTrimRight result punctCutset
  goTrimSpace result

/-- The string consisting of abc surrounded by single quotes and followed by a
period: a normalization input on which a second pass strips further. -/
def nestedQuoteInput : GoStr := [apos, 'a', 'b', 'c', apos, '.']

/-- The positive cue substrings of `VisionHandler` (monitoring mode), in the
order the source tests them. -/
def positiveCues : List GoStr :=
  [("yes").data, ("there is").data, ("i can see").data, ("visible").data,
   ("present").data, ("wearing").data, ("detected").data]

/-- The negative cue substrings of `VisionHandler` (monitoring mode), in the
order the source tests them; the fourth one is can followed by an apostrophe
and a t. -/
def negativeCues : List GoStr :=
  [("no").data, ("not").data, ("cannot").data,
   ['c', 'a', 'n', apos, 't'], ("unable").data]

/-- The positive-indicator disjunction of `VisionHandler`. -/
def visionIsPositive (analysisLower : GoStr) : Bool :=
  goContainsSub analysisLower (("yes").data) ||
  goContainsSub analysisLower (("there is").data) ||
  goContainsSub analysisLower (("i can see").data) ||
  goContainsSub analysisLower (("visible").data) ||
  goContainsSub analysisLower (("present").data) ||
  goContainsSub analysisLower (("wearing").data) ||
  goContainsSub analysisLower (("detected").data)

/-- The negative-indicator disjunction of `VisionHandler`. -/
def visionIsNegative (analysisLower : GoStr) : Bool :=
  goContainsSub analysisLower (("no").data) ||
  goContainsSub analysisLower (("not").data) ||
  goContainsSub analysisLower (("cannot").data) ||
  goContainsSub analysisLower ['c', 'a', 'n', apos, 't'] ||
  goContainsSub analysisLower (("unable").data)

/-- The state computation of `VisionHandler`: state defaults to 0; when the
request type is 1 (monitoring) and the lower-cased analysis is positive and
not negative, state becomes 1. -/
def visionComputeState (reqType : Int) (analysis : GoStr) : Nat :=
  if reqType = 1 then
    if visionIsPositive (goToLower analysis) &&
        !visionIsNegative (goToLower analysis) then 1 else 0
  else 0

/-- The UTF-8 encoding of one Unicode code point, as Go produces when a string
is written as bytes. -/
def utf8EncodeChar (c : Char) : List Nat :=
  let n := c.toNat
  if n < 0x80 then [n]
  else if n < 0x800 then
    [0xC0 ||| (n >>> 6), 0x80 ||| (n &&& 0x3F)]
  else if n < 0x10000 then
    [0xE0 ||| (n >>> 12), 0x80 ||| ((n >>> 6) &&& 0x3F), 0x80 ||| (n &&& 0x3F)]
  else
    [0xF0 ||| (n >>> 18), 0x80 ||| ((n >>> 12) &&& 0x3F),
     0x80 ||| ((n >>> 6) &&& 0x3F), 0x80 ||| (n &&& 0x3F)]

/-- The byte sequence of a Go string (UTF-8). -/
def strBytes (s : GoStr) : List Nat := (s.map utf8EncodeChar).flatten

/-- Go `len` of a string: its byte length. -/
def goLen (s : GoStr) : Nat := (strBytes s).length

/-- A lower-case hexadecimal digit, as `encoding/json` emits in escapes. -/
def hexDigitChar (n : Nat) : Char :=
  if n < 10 then Char.ofNat (48 + n) else Char.ofNat (87 + n)

/-- The escaping `encoding/json` applies to one character of a string value
(HTML escaping on, the Go default used by `json.Marshal`). -/
def goJSONEscapeChar (c : Char) : GoStr :=
  if c = Char.ofNat 34 then [Char.ofNat 92, Char.ofNat 34]
  else if c = Char.ofNat 92 then [Char.ofNat 92, Char.ofNat 92]
  else if c = Char.ofNat 10 then [Char.ofNat 92, 'n']
  else if c = Char.ofNat 13 then [Char.ofNat 92, 'r']
  else if c = Char.ofNat 9 then [Char.ofNat 92, 't']
  else if c.toNat < 0x20 then
    [Char.ofNat 92, 'u', '0', '0', hexDigitChar (c.toNat / 16), hexDigitChar (c.toNat % 16)]
  else if c = '<' then [Char.ofNat 92, 'u', '0', '0', '3', 'c']
  else if c = '>' then [Char.ofNat 92, 'u', '0', '0', '3', 'e']
  else if c = '&' then [Char.ofNat 92, 'u', '0', '0', '2', '6']
  else if c.toNat = 0x2028 then [Char.ofNat 92, 'u', '2', '0', '2', '8']
  else if c.toNat = 0x2029 then [Char.ofNat 92, 'u', '2', '0', '2', '9']
  else [c]

/-- A JSON string literal as `encoding/json` emits it. -/
def goJSONQuote (s : GoStr) : GoStr :=
  Char.ofNat 34 :: (s.map goJSONEscapeChar).flatten ++ [Char.ofNat 34]

/-- The JSON metadata of the `/v2/watcher/talk/audio_stream` response, as
`json.Marshal` emits the nested map built by `AudioStreamHandler` (Go
marshals map keys in sorted order: code, data; duration, mode, screen_text,
stt_result; no pretty-printing, no trailing newline). -/
def audioJSONHeader (mode : Nat) (durationMs : Int)
    (sttResult screenText : GoStr) : GoStr :=
  (("\x7b\"code\":200,\"data\":\x7b\"duration\":").data) ++ (toString durationMs).data ++
  ((",\"mode\":").data) ++ (toString mode).data ++
  ((",\"screen_text\":").data) ++ goJSONQuote screenText ++
  ((",\"stt_result\":").data) ++ goJSONQuote sttResult ++
  (("\x7d\x7d").data)

/-- The fixed boundary literal of the voice response. -/
def multipartBoundary : GoStr := ("---sensecraftboundary---").data

/-- The body written by `AudioStreamHandler`: the marshalled JSON bytes, then
the boundary followed by one newline, then the WAV bytes. -/
def audioStreamBody (jsonBytes audioData : List Nat) : List Nat :=
  jsonBytes ++ strBytes (multipartBoundary ++ [Char.ofNat 10]) ++ audioData

/-- The total size computed by `AudioStreamHandler` and sent as the
Content-Length header. -/
def audioStreamTotalSize (jsonBytes audioData : List Nat) : Nat :=
  jsonBytes.length + goLen multipartBoundary + 1 + audioData.length

/-- Base-two logarithm computed with explicit fuel (structural recursion);
`log2Fuel 64 n` is the floor of log2 n for 1 ≤ n < 2 ^ 64, which covers every
Go slice length. -/
def log2Fuel : Nat → Nat → Nat
  | 0, _ => 0
  | fuel + 1, n => if n < 2 then 0 else log2Fuel fuel (n / 2) + 1

/-- Floor of the base-two logarithm for the sizes in range. -/
def natLog2 (n : Nat) : Nat := log2Fuel 64 n

/-- Round the ratio a / b (with b ≥ 1) to the nearest integer, ties to even. -/
def rneRatio (a b : Nat) : Nat :=
  let q := a / b
  let r := a % b
  if 2 * r < b then q
  else if b < 2 * r then q + 1
  else if q % 2 = 0 then q else q + 1

/-- Decide whether a / b is strictly below 2 ^ t, t an integer exponent. -/
def ratioLtPow2 (a b : Nat) (t : Int) : Bool :=
  if 0 ≤ t then a < b * 2 ^ t.toNat else a * 2 ^ (-t).toNat < b

/-- Round the positive ratio a / b (1 ≤ a, 1 ≤ b) to the IEEE-754 binary64
grid, round to nearest with ties to even: the result (M, e) denotes the
double M·2^(e−52) with 2 ^ 52 ≤ M < 2 ^ 53.  Normal range only, which covers
every value arising in the duration computation. -/
def flOfRatio (a b : Nat) : Nat × Int :=
  let e0 : Int := (natLog2 a : Int) - (natLog2 b : Int)
  let e : Int := if ratioLtPow2 a b e0 then e0 - 1 else e0
  let s : Int := 52 - e
  let ab : Nat × Nat :=
    if 0 ≤ s then (a * 2 ^ s.toNat, b) else (a, b * 2 ^ (-s).toNat)
  let M := rneRatio ab.1 ab.2
  if M = 2 ^ 53 then (2 ^ 52, e + 1) else (M, e)

/-- Truncation toward zero of the non-negative double M·2^(e−52). -/
def truncOfScaled (M : Nat) (e : Int) : Nat :=
  if 0 ≤ e - 52 then M * 2 ^ (e - 52).toNat else M / 2 ^ (52 - e).toNat

/-- The audio-duration computation of `AudioStreamHandler`:
audioDataSize is len(audioData) − 44 clamped at 0 (the Nat subtraction
performs the clamp), and the duration is int((float64(audioDataSize) /
32000.0) * 1000) evaluated in IEEE-754 binary64 arithmetic — float64(n) is
exact for every size in range (n < 2 ^ 53), the division is one correctly
rounded operation, the multiplication by the exactly representable 1000 is a
second correctly rounded operation, and the int conversion truncates the
non-negative result toward zero. -/
def audioDurationMs (wavLen : Nat) : Nat :=
  let n := wavLen - 44
  if n = 0 then 0
  else
    let p1 := flOfRatio n 32000
    let a2 := p1.1 * 1000
    let t : Int := p1.2 - 52
    let pr : Nat × Nat :=
      if 0 ≤ t then (a2 * 2 ^ t.toNat, 1) else (a2, 2 ^ (-t).toNat)
    let p2 := flOfRatio pr.1 pr.2
    truncOfScaled p2.1 p2.2

/-- The duration the claim specifies: (S − 44) × 1000 / 32000 with integer
truncation when S ≥ 44 and 0 otherwise. -/
def durationExactTrunc (wavLen : Nat) : Nat :=
  if wavLen < 44 then 0 else (wavLen - 44) * 1000 / 32000

/-- A JSON document, as built by the handlers before encoding. -/
inductive JValue where
  | null : JValue
  | num (n : Int) : JValue
  | str (s : GoStr) : JValue
  | arr (elems : List JValue) : JValue
  | obj (fields : List (GoStr × JValue)) : JValue

/-- A row of the task_flows table; the target_objects and actions columns are
opaque JSON text on the store side. -/
structure TaskFlowRow where
  id : Nat
  deviceEUI : GoStr
  name : GoStr
  headline : GoStr
  triggerCondition : GoStr
  targetObjectsText : GoStr
  actionsText : GoStr
  modelType : Nat
  createdAt : Nat
  updatedAt : Nat

/-- The in-memory database.TaskFlow record used by the handlers (the handler
version of the record carries the LLM-selected ModelType). -/
structure TaskFlow where
  id : Nat
  deviceEUI : GoStr
  name : GoStr
  headline : GoStr
  triggerCondition : GoStr
  targetObjects : List GoStr
  actions : List GoStr
  modelType : Nat
  createdAt : Nat
  updatedAt : Nat

/-- The encoding/json standard-library operations the store applies to the
list-valued columns, kept abstract: marshalling a list of strings to JSON
text, and the partial inverse used by row scanning. -/
structure JSONCodec where
  marshalList : List GoStr → GoStr
  unmarshalList : GoStr → Option (List GoStr)

/-- The persistent store: task_flows rows in insertion order, the next
AUTOINCREMENT id, and the clock in milliseconds (time.Now advances strictly
between consecutive inserts). -/
structure StoreState where
  rows : List TaskFlowRow
  nextId : Nat
  now : Nat

/-- Row scanning in `GetTaskFlowsByDevice` and `GetTaskFlowByID`: the JSON
columns are unmarshalled, and on unmarshal failure the empty list is
substituted (with a logged warning). -/
def scanTaskFlowRow (codec : JSONCodec) (row : TaskFlowRow) : TaskFlow :=
  { id := row.id
    deviceEUI := row.deviceEUI
    name := row.name
    headline := row.headline
    triggerCondition := row.triggerCondition
    targetObjects := (codec.unmarshalList row.targetObjectsText).getD []
    actions := (codec.unmarshalList row.actionsText).getD []
    modelType := row.modelType
    createdAt := row.createdAt
    updatedAt := row.updatedAt }

/-- One step of sorting by creation instant, newest first. -/
def insertDesc (r : TaskFlowRow) : List TaskFlowRow → List TaskFlowRow
  | [] => [r]
  | x :: xs => if x.createdAt ≤ r.createdAt then r :: x :: xs else x :: insertDesc r xs

/-- ORDER BY created_at DESC. -/
def sortByCreatedDesc : List TaskFlowRow → List TaskFlowRow
  | [] => []
  | x :: xs => insertDesc x (sortByCreatedDesc xs)

/-- `GetTaskFlowsByDevice`: select the rows of the device, newest first, and
scan each row. -/
def getTaskFlowsByDevice (codec : JSONCodec) (s : StoreState) (dev : GoStr) :
    List TaskFlow :=
  (sortByCreatedDesc (s.rows.filter (fun r => decide (r.deviceEUI = dev)))).map
    (scanTaskFlowRow codec)

/-- `SaveTaskFlow`: marshal the list columns, insert a fresh row, and return
the record with its id and timestamps set. -/
def saveTaskFlow (codec : JSONCodec) (s : StoreState) (tf : TaskFlow) :
    StoreState × TaskFlow :=
  ({ rows := s.rows ++
      [{ id := s.nextId
         deviceEUI := tf.deviceEUI
         name := tf.name
         headline := tf.headline
         triggerCondition := tf.triggerCondition
         targetObjectsText := codec.marshalList tf.targetObjects
         actionsText := codec.marshalList tf.actions
         modelType := tf.modelType
         createdAt := s.now
         updatedAt := s.now }]
     nextId := s.nextId + 1
     now := s.now + 1 },
   { tf with id := s.nextId, createdAt := s.now, updatedAt := s.now })

/-- `DeleteTaskFlow`: DELETE FROM task_flows WHERE id = ?. -/
def deleteTaskFlow (s : StoreState) (id : Nat) : StoreState :=
  { s with rows := s.rows.filter (fun r => decide (r.id ≠ id)) }

/-- The persistence step of `processTaskMode` (audio_stream handler): fetch the
old task flows of the device, delete each of them, then save the new task
flow built from the transcription, headline, trigger, single target object,
the notify action, and the selected model type. -/
def processTaskModePersist (codec : JSONCodec) (s : StoreState)
    (deviceEUI transcription headline trigger targetObject : GoStr)
    (modelType : Nat) : StoreState :=
  (saveTaskFlow codec
    ((getTaskFlowsByDevice codec s deviceEUI).foldl
      (fun st t => deleteTaskFlow st t.id) s)
    { id := 0
      deviceEUI := deviceEUI
      name := transcription
      headline := headline
      triggerCondition := trigger
      targetObjects := [targetObject]
      actions := [("notify").data]
      modelType := modelType
      createdAt := 0
      updatedAt := 0 }).1

/-- Node 1 of the reified graph (`convertToNodeREDFormat`): the ai camera
module with one preset appear condition whose class is the first target
object. -/
def aiCameraNode (modelType : Nat) (cls : GoStr) : JValue :=
  JValue.obj [
    (("id").data, JValue.num 1),
    (("type").data, JValue.str (("ai camera").data)),
    (("index").data, JValue.num 0),
    (("params").data, JValue.obj [
      (("modes").data, JValue.num 0),
      (("model_type").data, JValue.num modelType),
      (("conditions").data, JValue.arr [JValue.obj [
        (("class").data, JValue.str cls),
        (("mode").data, JValue.num 1),
        (("type").data, JValue.num 2),
        (("num").data, JValue.num 0)]]),
      (("conditions_combo").data, JValue.num 0),
      (("silent_period").data,
        JValue.obj [(("silence_duration").data, JValue.num 5)]),
      (("output_type").data, JValue.num 1),
      (("shutter").data, JValue.num 0)]),
    (("wires").data, JValue.arr [JValue.arr [JValue.num 2]])]

/-- Node 2: the image analyzer in monitoring mode with the trigger as the
prompt. -/
def imageAnalyzerNode (trigger : GoStr) : JValue :=
  JValue.obj [
    (("id").data, JValue.num 2),
    (("type").data, JValue.str (("image analyzer").data)),
    (("index").data, JValue.num 1),
    (("params").data, JValue.obj [
      (("body").data, JValue.obj [
        (("prompt").data, JValue.str trigger),
        (("type").data, JValue.num 1),
        (("audio_txt").data, JValue.str [])])]),
    (("wires").data, JValue.arr [JValue.arr [JValue.num 3, JValue.num 4]])]

/-- Node 3: the local alarm. -/
def localAlarmNode : JValue :=
  JValue.obj [
    (("id").data, JValue.num 3),
    (("type").data, JValue.str (("local alarm").data)),
    (("index").data, JValue.num 2),
    (("params").data, JValue.obj [
      (("sound").data, JValue.num 1),
      (("rgb").data, JValue.num 1),
      (("img").data, JValue.num 0),
      (("text").data, JValue.num 0),
      (("duration").data, JValue.num 5)]),
    (("wires").data, JValue.arr [])]

/-- Node 4: the sensecraft alarm. -/
def sensecraftAlarmNode : JValue :=
  JValue.obj [
    (("id").data, JValue.num 4),
    (("type").data, JValue.str (("sensecraft alarm").data)),
    (("index").data, JValue.num 3),
    (("params").data, JValue.obj [
      (("silence_duration").data, JValue.num 30)]),
    (("wires").data, JValue.arr [])]

/-- `convertToNodeREDFormat`: reify a stored task flow into the wrapper with
the four-node graph.  The source indexes TargetObjects[0] unconditionally;
on an empty target list that access panics, modelled by none. -/
def convertToNodeREDFormat (task : TaskFlow) : Option JValue :=
  match task.targetObjects with
  | [] => none
  | cls :: _ =>
    some (JValue.obj [
      (("type").data, JValue.num 0),
      (("tlid").data, JValue.num task.id),
      (("ctd").data, JValue.num task.createdAt),
      (("tn").data, JValue.str task.headline),
      (("task_flow").data, JValue.arr [
        aiCameraNode task.modelType cls,
        imageAnalyzerNode task.triggerCondition,
        localAlarmNode,
        sensecraftAlarmNode])])

/-- Look a key up in a JSON object. -/
def jGet (key : GoStr) : JValue → Option JValue
  | JValue.obj fields => fields.lookup key
  | _ => none

/-- Index into a JSON array. -/
def jIndex (i : Nat) : JValue → Option JValue
  | JValue.arr elems => elems.get? i
  | _ => none

/-- The class of the single condition of node 1 of a reified graph. -/
def node1ConditionClass (g : JValue) : Option JValue :=
  ((((jGet (("task_flow").data) g).bind (jIndex 0)).bind
    (jGet (("params").data))).bind (jGet (("conditions").data))).bind
    (fun conds => (jIndex 0 conds).bind (jGet (("class").data)))

/-- The response body of `TaskDetailHandler` around a tl value. -/
def taskDetailBody (tl : JValue) : JValue :=
  JValue.obj [
    (("code").data, JValue.num 200),
    (("data").data, JValue.obj [(("tl").data, tl)])]

/-- `TaskDetailHandler`: fetch the task flows of the device; with none, answer
200 with tl an empty object; otherwise reify the newest flow (none models the
panic on an empty target list). -/
def taskDetailResponse (codec : JSONCodec) (s : StoreState) (dev : GoStr) :
    Option (Nat × JValue) :=
  match getTaskFlowsByDevice codec s dev with
  | [] => some (200, taskDetailBody (JValue.obj []))
  | tf :: _ => (convertToNodeREDFormat tf).map (fun tl => (200, taskDetailBody tl))

/-- A codec whose unmarshalling always fails, for the witnesses. -/
def failingCodec : JSONCodec :=
  { marshalList := fun _ => [], unmarshalList := fun _ => none }

/-- A stored row whose JSON columns hold unparseable text, for the C9
witness. -/
def corruptRow : TaskFlowRow :=
  { id := 7, deviceEUI := (("0000000000000000").data), name := [], headline := []
    triggerCondition := [], targetObjectsText := (("oops").data)
    actionsText := (("oops").data), modelType := 1, createdAt := 0, updatedAt := 0 }

/-- A well-formed in-memory task flow with one target object, for the C9
witness. -/
def personTask : TaskFlow :=
  { id := 1, deviceEUI := (("0000000000000000").data), name := [], headline := []
    triggerCondition := [], targetObjects := [("person").data]
    actions := [("notify").data], modelType := 1, createdAt := 0, updatedAt := 0 }

/-- The inference payload of a notification event (models.InferenceData):
detection boxes are 6-tuples, classifications 2-tuples, with the class-name
table. -/
structure InferenceData where
  boxes : List (Int × Int × Int × Int × Int × Int)
  classes : List (Int × Int)
  classesName : List GoStr

/-- The sensor payload (models.SensorData); the float64 temperature is carried
as an exact rational, the payload being marshalled opaquely. -/
structure SensorData where
  temperature : Option ℚ
  humidity : Option Int
  co2 : Option Int

/-- models.EventData. -/
structure EventData where
  inference : Option InferenceData
  sensor : Option SensorData

/-- models.Events. -/
structure EventsPayload where
  timestamp : Option Int
  text : Option GoStr
  img : Option GoStr
  data : Option EventData

/-- models.NotificationEventRequest: the body carries its own deviceEui
field. -/
structure NotificationEventRequest where
  requestId : GoStr
  deviceEui : GoStr
  events : EventsPayload

/-- database.NotificationEvent as inserted (id and reception instant are set
by the store). -/
structure NotificationEvent where
  requestId : GoStr
  deviceEUI : GoStr
  timestamp : Int
  text : GoStr
  img : GoStr
  inferenceData : GoStr
  sensorData : GoStr

/-- The encoding/json marshalling of the inference and sensor sub-objects,
kept abstract (none models a marshal error, in which case the stored text
stays empty). -/
structure NotificationCodec where
  marshalInference : InferenceData → Option GoStr
  marshalSensor : SensorData → Option GoStr

/-- Helper getTimestamp of the notification handler: nil becomes 0. -/
def getTimestamp (ts : Option Int) : Int := ts.getD 0

/-- Helper getString of the notification handler: nil becomes the empty
string. -/
def getString (s : Option GoStr) : GoStr := s.getD []

/-- `saveNotificationToDatabase`: build the stored event row.  The device_eui
column receives the deviceEUI argument, which `NotificationHandler` reads
from the API-OBITER-DEVICE-EUI header; the deviceEui field of the JSON body
is never consulted. -/
def saveNotificationToDatabase (codec : NotificationCodec) (deviceEUI : GoStr)
    (req : NotificationEventRequest) : NotificationEvent :=
  let inferenceJSON : GoStr :=
    match req.events.data with
    | some d =>
      match d.inference with
      | some inf => (codec.marshalInference inf).getD []
      | none => []
    | none => []
  let sensorJSON : GoStr :=
    match req.events.data with
    | some d =>
      match d.sensor with
      | some sen => (codec.marshalSensor sen).getD []
      | none => []
    | none => []
  { requestId := req.requestId
    deviceEUI := deviceEUI
    timestamp := getTimestamp req.events.timestamp
    text := getString req.events.text
    img := getString req.events.img
    inferenceData := inferenceJSON
    sensorData := sensorJSON }

/-- A codec that is lawful on singleton lists, for the C4 witness. -/
def singletonCodec : JSONCodec :=
  { marshalList := fun l => l.flatten, unmarshalList := fun s => some [s] }

theorem goContainsSub_singleton (s : GoStr) (c : Char) :
    goContainsSub s [c] = true ↔ c ∈ s := by
  induction s with
  | nil => simp [goContainsSub]
  | cons x rest ih =>
    simp only [goContainsSub, List.isPrefixOf, Bool.and_true, Bool.or_eq_true,
      beq_iff_eq, ih, List.mem_cons]

theorem mem_dropWhile_not_pred {p : Char → Bool} {c : Char} (hc : p c = false) :
    ∀ l : GoStr, c ∈ l.dropWhile p ↔ c ∈ l := by
  intro l
  induction l with
  | nil => simp
  | cons x rest ih =>
    simp only [List.dropWhile_cons]
    by_cases hx : p x
    · simp only [hx, if_true, ih, List.mem_cons]
      constructor
      · exact Or.inr
      · rintro (h | h)
        · subst h; rw [hx] at hc; cases hc
        · exact h
    · simp [hx]

theorem mem_goTrimSpace {c : Char} (hc : goIsSpace c = false) (s : GoStr) :
    c ∈ goTrimSpace s ↔ c ∈ s := by
  unfold goTrimSpace
  rw [List.mem_reverse, mem_dropWhile_not_pred hc, List.mem_reverse,
    mem_dropWhile_not_pred hc]

/-- C2 counterexample: for the classifier output 21, the digit 2 occurs first,
so the claim requires mode 2, but `determineMode` returns 1 because the
membership test for digit 1 is performed first. -/
theorem determineMode_first_occurrence_counterexample :
    determineMode (("21").data) = 1 ∧ firstDigitMode (("21").data) = 2 := by
  decide

/-- C2 amended: the mode is 1 whenever the classifier output contains the digit
1 anywhere (regardless of the position of any digit 2), else 2 whenever it
contains the digit 2, else 0. -/
theorem determineMode_contains_precedence (s : GoStr) :
    determineMode s = if '1' ∈ s then 1 else if '2' ∈ s then 2 else 0 := by
  have h1 : goContainsSub (goTrimSpace s) ['1'] = true ↔ '1' ∈ s :=
    (goContainsSub_singleton _ _).trans (mem_goTrimSpace (by decide) s)
  have h2 : goContainsSub (goTrimSpace s) ['2'] = true ↔ '2' ∈ s :=
    (goContainsSub_singleton _ _).trans (mem_goTrimSpace (by decide) s)
  unfold determineMode
  by_cases g1 : '1' ∈ s
  · rw [if_pos (h1.mpr g1), if_pos g1]
  · rw [if_neg (fun h => g1 (h1.mp h)), if_neg g1]
    by_cases g2 : '2' ∈ s
    · rw [if_pos (h2.mpr g2), if_pos g2]
    · rw [if_neg (fun h => g2 (h2.mp h)), if_neg g2]

/-- C7 counterexample: for the normalized selector output 302, the first of the
digits 2, 3, 0 to occur is 3, so the first-occurrence rule of the claim yields
Gesture (3), but `parseModelType` yields Pet (2) because the membership test
for digit 2 is performed first. -/
theorem parseModelType_first_occurrence_counterexample :
    parseModelType (("302").data) = 2 ∧ firstModelDigit (("302").data) = 3 := by
  decide

/-- C7 amended: the selected model kind follows the containment precedence
2, 3, 0, else 1, each digit tested for occurrence anywhere in the output. -/
theorem parseModelType_precedence (s : GoStr) :
    parseModelType s =
      if '2' ∈ s then 2 else if '3' ∈ s then 3 else if '0' ∈ s then 0 else 1 := by
  have h2 := goContainsSub_singleton s '2'
  have h3 := goContainsSub_singleton s '3'
  have h0 := goContainsSub_singleton s '0'
  unfold parseModelType
  by_cases g2 : '2' ∈ s
  · rw [if_pos (h2.mpr g2), if_pos g2]
  · rw [if_neg (fun h => g2 (h2.mp h)), if_neg g2]
    by_cases g3 : '3' ∈ s
    · rw [if_pos (h3.mpr g3), if_pos g3]
    · rw [if_neg (fun h => g3 (h3.mp h)), if_neg g3]
      by_cases g0 : '0' ∈ s
      · rw [if_pos (h0.mpr g0), if_pos g0]
      · rw [if_neg (fun h => g0 (h0.mp h)), if_neg g0]

/-- C8 counterexample: `cleanLLMResponse` is not idempotent.  On the input
consisting of abc in single quotes followed by a period, one pass yields abc
followed by a single quote (the trailing period shielded the closing quote),
and a second pass strips that quote as well. -/
theorem cleanLLMResponse_not_idempotent :
    cleanLLMResponse (cleanLLMResponse nestedQuoteInput) ≠
      cleanLLMResponse nestedQuoteInput := by
  decide

/-- C8 amended: normalization maps the quoted, period-terminated greeting to
the bare greeting; idempotence fails in general (see the counterexample). -/
theorem cleanLLMResponse_hello :
    cleanLLMResponse ((" \"Hello world.\" ").data) = (("Hello world").data) := by
  decide

theorem visionIsPositive_iff (L : GoStr) :
    visionIsPositive L = true ↔ ∃ cue ∈ positiveCues, goContainsSub L cue = true := by
  simp only [visionIsPositive, Bool.or_eq_true, positiveCues, List.mem_cons,
    List.not_mem_nil, or_false, exists_eq_or_imp, exists_eq_left]
  tauto

theorem visionIsNegative_iff (L : GoStr) :
    visionIsNegative L = false ↔ ∀ cue ∈ negativeCues, goContainsSub L cue = false := by
  simp only [visionIsNegative, Bool.or_eq_false_iff, negativeCues, List.mem_cons,
    List.not_mem_nil, or_false, forall_eq_or_imp, forall_eq]
  tauto

/-- C6: for request type 0 (recognize) the state is 0 regardless of the
analysis; for request type 1 (monitoring) the state is 1 exactly when the
lower-cased analysis contains at least one of the positive cues and none of
the negative cues. -/
theorem visionState_cues (analysis : GoStr) :
    visionComputeState 0 analysis = 0 ∧
    (visionComputeState 1 analysis = 1 ↔
      (∃ cue ∈ positiveCues, goContainsSub (goToLower analysis) cue = true) ∧
      (∀ cue ∈ negativeCues, goContainsSub (goToLower analysis) cue = false)) := by
  refine ⟨by simp [visionComputeState], ?_⟩
  rw [← visionIsPositive_iff, ← visionIsNegative_iff]
  unfold visionComputeState
  rw [if_pos rfl]
  by_cases hb : (visionIsPositive (goToLower analysis) &&
      !visionIsNegative (goToLower analysis)) = true
  · rw [if_pos hb]
    simp only [Bool.and_eq_true, Bool.not_eq_true'] at hb
    simp [hb]
  · rw [if_neg hb]
    constructor
    · intro h
      exact absurd h (by decide)
    · rintro ⟨hp, hn⟩
      exact absurd (by rw [hp, hn]; rfl) hb

theorem strBytes_append (s t : GoStr) :
    strBytes (s ++ t) = strBytes s ++ strBytes t := by
  simp [strBytes]

/-- C1: the voice response body is exactly the UTF-8 JSON header, the ASCII
boundary literal, one 0x0A byte, and the WAV bytes verbatim with nothing
after them; and the Content-Length value equals the sum of those four
lengths, i.e. the exact length of the body. -/
theorem audioStream_framing (mode : Nat) (durationMs : Int)
    (sttResult screenText : GoStr) (audioData : List Nat) :
    audioStreamBody (strBytes (audioJSONHeader mode durationMs sttResult screenText))
        audioData =
      strBytes (audioJSONHeader mode durationMs sttResult screenText) ++
        (strBytes multipartBoundary ++ ([10] ++ audioData)) ∧
    audioStreamTotalSize (strBytes (audioJSONHeader mode durationMs sttResult screenText))
        audioData =
      (audioStreamBody (strBytes (audioJSONHeader mode durationMs sttResult screenText))
        audioData).length := by
  have hnl : strBytes [Char.ofNat 10] = [10] := by decide
  have hsplit : strBytes (multipartBoundary ++ [Char.ofNat 10]) =
      strBytes multipartBoundary ++ [10] := by
    rw [strBytes_append, hnl]
  constructor
  · unfold audioStreamBody
    rw [hsplit]
    simp [List.append_assoc]
  · unfold audioStreamBody audioStreamTotalSize
    rw [hsplit]
    simp only [List.length_append, List.length_cons, List.length_nil, goLen]
    omega

/-- C3: at WAV size 32076 (32032 PCM bytes, exactly 1001 ms of audio at 32000
bytes per second) the code computes 1000 — the two binary64 roundings of
(32032 / 32000) · 1000 land just below 1001 and the int conversion truncates
— while the exact integer-truncated formula of the claim gives 1001. -/
theorem audioDuration_float64_bug :
    audioDurationMs 32076 = 1000 ∧ durationExactTrunc 32076 = 1001 := by
  decide

/-- C5: for a device with zero stored task flows, the task-detail endpoint
answers status 200 with body code 200 and data.tl present and equal to the
empty JSON object (not null, not absent). -/
theorem taskDetail_empty (codec : JSONCodec) (s : StoreState) (dev : GoStr)
    (h : getTaskFlowsByDevice codec s dev = []) :
    taskDetailResponse codec s dev =
      some (200, JValue.obj [
        (("code").data, JValue.num 200),
        (("data").data, JValue.obj [(("tl").data, JValue.obj [])])]) := by
  unfold taskDetailResponse
  rw [h]
  rfl

/-- C5 witness: in the empty store, the response for a fresh device is the
empty tl object. -/
theorem taskDetail_empty_witness :
    taskDetailResponse failingCodec ⟨[], 1, 0⟩ (("0000000000000000").data) =
      some (200, JValue.obj [
        (("code").data, JValue.num 200),
        (("data").data, JValue.obj [(("tl").data, JValue.obj [])])]) :=
  taskDetail_empty failingCodec ⟨[], 1, 0⟩ (("0000000000000000").data) rfl

/-- C9: reification is total on any stored task flow with a non-empty
target-object list, and node 1 carries the first target object as the class
of its single condition; but row scanning substitutes the empty list whenever
the persisted JSON column fails to unmarshal, and on such a record the
TargetObjects[0] access of the reification has no value. -/
theorem nodeRED_reify_safety (task : TaskFlow) (cls : GoStr) (rest : List GoStr)
    (htask : task.targetObjects = cls :: rest)
    (codec : JSONCodec) (row : TaskFlowRow)
    (hrow : codec.unmarshalList row.targetObjectsText = none) :
    (∃ g, convertToNodeREDFormat task = some g ∧
      node1ConditionClass g = some (JValue.str cls)) ∧
    (scanTaskFlowRow codec row).targetObjects = [] ∧
    convertToNodeREDFormat (scanTaskFlowRow codec row) = none := by
  have hscan : (scanTaskFlowRow codec row).targetObjects = [] := by
    simp [scanTaskFlowRow, hrow]
  refine ⟨?_, hscan, ?_⟩
  · unfold convertToNodeREDFormat
    rw [htask]
    exact ⟨_, rfl, rfl⟩
  · unfold convertToNodeREDFormat
    rw [hscan]

/-- C9 witness: instantiated at a one-target task flow and at a row whose
column text fails to unmarshal. -/
theorem nodeRED_reify_safety_witness :
    (∃ g, convertToNodeREDFormat personTask = some g ∧
      node1ConditionClass g = some (JValue.str (("person").data))) ∧
    (scanTaskFlowRow failingCodec corruptRow).targetObjects = [] ∧
    convertToNodeREDFormat (scanTaskFlowRow failingCodec corruptRow) = none :=
  nodeRED_reify_safety personTask (("person").data) [] rfl failingCodec corruptRow rfl

/-- C10: the stored device identifier is the header value, and the deviceEui
field of the body does not influence the stored row — two requests differing
only in that field produce identical rows. -/
theorem notification_device_noninterference (codec : NotificationCodec)
    (hdr : GoStr) (req : NotificationEventRequest) (d1 d2 : GoStr) :
    saveNotificationToDatabase codec hdr { req with deviceEui := d1 } =
      saveNotificationToDatabase codec hdr { req with deviceEui := d2 } ∧
    (saveNotificationToDatabase codec hdr req).deviceEUI = hdr :=
  ⟨rfl, rfl⟩

theorem mem_insertDesc (a r : TaskFlowRow) (l : List TaskFlowRow) :
    a ∈ insertDesc r l ↔ a = r ∨ a ∈ l := by
  induction l with
  | nil => simp [insertDesc]
  | cons x xs ih =>
    unfold insertDesc
    by_cases hx : x.createdAt ≤ r.createdAt
    · simp only [if_pos hx, List.mem_cons]
    · simp only [if_neg hx, List.mem_cons, ih]
      tauto

theorem mem_sortByCreatedDesc (a : TaskFlowRow) (l : List TaskFlowRow) :
    a ∈ sortByCreatedDesc l ↔ a ∈ l := by
  induction l with
  | nil => simp [sortByCreatedDesc]
  | cons x xs ih =>
    unfold sortByCreatedDesc
    rw [mem_insertDesc]
    simp [ih]

theorem foldl_delete_rows (ts : List TaskFlow) :
    ∀ s : StoreState,
      (ts.foldl (fun st t => deleteTaskFlow st t.id) s).rows =
        s.rows.filter (fun r => decide (∀ t ∈ ts, r.id ≠ t.id)) ∧
      (ts.foldl (fun st t => deleteTaskFlow st t.id) s).nextId = s.nextId ∧
      (ts.foldl (fun st t => deleteTaskFlow st t.id) s).now = s.now := by
  induction ts with
  | nil =>
    intro s
    refine ⟨?_, rfl, rfl⟩
    simp
  | cons t ts ih =>
    intro s
    simp only [List.foldl_cons]
    obtain ⟨h1, h2, h3⟩ := ih (deleteTaskFlow s t.id)
    refine ⟨?_, h2, h3⟩
    rw [h1]
    show (s.rows.filter fun r => decide (r.id ≠ t.id)).filter
        (fun r => decide (∀ x ∈ ts, r.id ≠ x.id)) = _
    rw [List.filter_filter]
    apply List.filter_congr
    intro r _
    by_cases hpt : r.id ≠ t.id <;>
      by_cases hts : ∀ x ∈ ts, r.id ≠ x.id <;>
        simp [hpt, hts, List.forall_mem_cons]

theorem scan_mem_get (codec : JSONCodec) (s : StoreState) (dev : GoStr)
    (r : TaskFlowRow) (hr : r ∈ s.rows) (hdev : r.deviceEUI = dev) :
    scanTaskFlowRow codec r ∈ getTaskFlowsByDevice codec s dev := by
  unfold getTaskFlowsByDevice
  apply List.mem_map_of_mem
  rw [mem_sortByCreatedDesc, List.mem_filter]
  exact ⟨hr, by simp [hdev]⟩

theorem delete_clears_device (codec : JSONCodec) (s : StoreState) (dev : GoStr) :
    (((getTaskFlowsByDevice codec s dev).foldl
        (fun st t => deleteTaskFlow st t.id) s).rows).filter
      (fun r => decide (r.deviceEUI = dev)) = [] := by
  obtain ⟨hrows, -, -⟩ := foldl_delete_rows (getTaskFlowsByDevice codec s dev) s
  rw [hrows, List.filter_filter, List.filter_eq_nil_iff]
  intro r hr hcon
  simp only [Bool.and_eq_true, decide_eq_true_eq] at hcon
  obtain ⟨hdev, hall⟩ := hcon
  exact hall (scanTaskFlowRow codec r) (scan_mem_get codec s dev r hr hdev) rfl

theorem persist_components (codec : JSONCodec) (s : StoreState)
    (dev tr hd tg obj : GoStr) (m : Nat) :
    (processTaskModePersist codec s dev tr hd tg obj m).rows =
      (s.rows.filter
        (fun r => decide (∀ t ∈ getTaskFlowsByDevice codec s dev, r.id ≠ t.id))) ++
      [{ id := s.nextId, deviceEUI := dev, name := tr, headline := hd,
         triggerCondition := tg, targetObjectsText := codec.marshalList [obj],
         actionsText := codec.marshalList [("notify").data], modelType := m,
         createdAt := s.now, updatedAt := s.now }] ∧
    (processTaskModePersist codec s dev tr hd tg obj m).nextId = s.nextId + 1 ∧
    (processTaskModePersist codec s dev tr hd tg obj m).now = s.now + 1 := by
  obtain ⟨h1, h2, h3⟩ := foldl_delete_rows (getTaskFlowsByDevice codec s dev) s
  refine ⟨?_, ?_, ?_⟩
  · show ((getTaskFlowsByDevice codec s dev).foldl
        (fun st t => deleteTaskFlow st t.id) s).rows ++
      [{ id := ((getTaskFlowsByDevice codec s dev).foldl
            (fun st t => deleteTaskFlow st t.id) s).nextId,
         deviceEUI := dev, name := tr, headline := hd, triggerCondition := tg,
         targetObjectsText := codec.marshalList [obj],
         actionsText := codec.marshalList [("notify").data], modelType := m,
         createdAt := ((getTaskFlowsByDevice codec s dev).foldl
            (fun st t => deleteTaskFlow st t.id) s).now,
         updatedAt := ((getTaskFlowsByDevice codec s dev).foldl
            (fun st t => deleteTaskFlow st t.id) s).now }] = _
    rw [h1, h2, h3]
  · show ((getTaskFlowsByDevice codec s dev).foldl
        (fun st t => deleteTaskFlow st t.id) s).nextId + 1 = s.nextId + 1
    rw [h2]
  · show ((getTaskFlowsByDevice codec s dev).foldl
        (fun st t => deleteTaskFlow st t.id) s).now + 1 = s.now + 1
    rw [h3]

theorem getTaskFlowsByDevice_persist (codec : JSONCodec) (s : StoreState)
    (dev tr hd tg obj : GoStr) (m : Nat) :
    getTaskFlowsByDevice codec (processTaskModePersist codec s dev tr hd tg obj m)
        dev =
      [scanTaskFlowRow codec
        { id := s.nextId, deviceEUI := dev, name := tr, headline := hd,
          triggerCondition := tg, targetObjectsText := codec.marshalList [obj],
          actionsText := codec.marshalList [("notify").data], modelType := m,
          createdAt := s.now, updatedAt := s.now }] := by
  obtain ⟨h1, -, -⟩ := foldl_delete_rows (getTaskFlowsByDevice codec s dev) s
  have hclear := delete_clears_device codec s dev
  rw [h1] at hclear
  obtain ⟨hrows, -, -⟩ := persist_components codec s dev tr hd tg obj m
  unfold getTaskFlowsByDevice
  rw [hrows, List.filter_append, hclear]
  simp [sortByCreatedDesc, insertDesc]

/-- C4: after the task-mode persistence step runs twice for the same device —
first creating T1, then T2 — the store holds exactly one task flow for the
device, namely T2 with the fresh id and creation instant assigned at its
insertion. -/
theorem taskFlow_supersession (codec : JSONCodec) (s0 : StoreState)
    (dev t1 h1 tr1 o1 : GoStr) (m1 : Nat) (t2 h2 tr2 o2 : GoStr) (m2 : Nat)
    (hobj : codec.unmarshalList (codec.marshalList [o2]) = some [o2])
    (hact : codec.unmarshalList (codec.marshalList [("notify").data]) =
      some [("notify").data]) :
    getTaskFlowsByDevice codec
        (processTaskModePersist codec
          (processTaskModePersist codec s0 dev t1 h1 tr1 o1 m1)
          dev t2 h2 tr2 o2 m2) dev =
      [{ id := s0.nextId + 1, deviceEUI := dev, name := t2, headline := h2,
         triggerCondition := tr2, targetObjects := [o2],
         actions := [("notify").data], modelType := m2,
         createdAt := s0.now + 1, updatedAt := s0.now + 1 }] := by
  obtain ⟨-, hnext, hnow⟩ := persist_components codec s0 dev t1 h1 tr1 o1 m1
  rw [getTaskFlowsByDevice_persist codec
    (processTaskModePersist codec s0 dev t1 h1 tr1 o1 m1) dev t2 h2 tr2 o2 m2]
  rw [hnext, hnow]
  unfold scanTaskFlowRow
  rw [hobj, hact]
  rfl

/-- C4 witness: two task creations for a concrete device in an initially empty
store leave exactly the second task flow. -/
theorem taskFlow_supersession_witness :
    getTaskFlowsByDevice singletonCodec
        (processTaskModePersist singletonCodec
          (processTaskModePersist singletonCodec ⟨[], 1, 10⟩
            (("2CF7F1C04430000C").data) (("watch for cats").data)
            (("Watch for cats").data) (("cat on counter").data)
            (("cat").data) 2)
          (("2CF7F1C04430000C").data) (("watch for people").data)
          (("Watch for people").data) (("person arrives").data)
          (("person").data) 1)
        (("2CF7F1C04430000C").data) =
      [{ id := 2, deviceEUI := (("2CF7F1C04430000C").data),
         name := (("watch for people").data),
         headline := (("Watch for people").data),
         triggerCondition := (("person arrives").data),
         targetObjects := [("person").data],
         actions := [("notify").data], modelType := 1,
         createdAt := 11, updatedAt := 11 }] :=
  taskFlow_supersession singletonCodec ⟨[], 1, 10⟩
    (("2CF7F1C04430000C").data) (("watch for cats").data)
    (("Watch for cats").data) (("cat on counter").data) (("cat").data) 2
    (("watch for people").data) (("Watch for people").data)
    (("person arrives").data) (("person").data) 1 rfl rfl
